import Mathlib

/-!
# Containment Policy — shallow embedding

A shallow embedding of `src/chimera_factory/security/containment.py`
(the ContainmentPolicy engine: operation gating, resource-quota
accounting, escalation) together with theorems settling the claims
about it.

Modelling conventions:
* Python floats are modelled as exact rationals (`ℚ`); every decimal
  literal in the source (0.8, 0.9375, …) denotes the corresponding
  rational.  All comparisons appearing in the claims are far from any
  rounding boundary, so the abstraction is faithful.
* Python dicts used as parameter bags are association lists
  `List (String × String)`; `dict.get(k, "")` is `getParam`.
* `time.time()` is an explicit `now : ℚ` argument threaded into the
  records that store a timestamp.
* Raising an exception is modelled with `Except`: each public check
  returns the post-call state together with `Except ChimeraError α`.
  The internal `_escalate` returns the new state and an optional error
  (it raises only for fatal severities).
-/

/-- Python `pat in s` on strings, char-list level: does `pat` occur as a
contiguous segment of `s`?  `listLeads pat s` is `s.startswith(pat)`. -/
def listLeads : List Char → List Char → Bool
  | [], _ => true
  | _ :: _, [] => false
  | a :: as, b :: bs => a == b && listLeads as bs

/-- Occurrence of `pat` as a contiguous segment anywhere in the list. -/
def listHasSeg (pat : List Char) : List Char → Bool
  | [] => listLeads pat []
  | c :: rest => listLeads pat (c :: rest) || listHasSeg pat rest

/-- Python `s.startswith(pat)`. -/
def strStartsWith (s pat : String) : Bool := listLeads pat.data s.data

/-- Python `pat in s` (substring containment). -/
def strContainsSub (s pat : String) : Bool := listHasSeg pat.data s.data

/-- Python `s.upper()` (per-character uppercasing; the patterns involved
are ASCII, where this coincides with Python's semantics). -/
def strUpper (s : String) : String := ⟨s.data.map Char.toUpper⟩

/-- A Python parameter dict restricted to the string-valued keys the
containment code reads (`path`, `url`, `command`, `query`). -/
def OperationParams := List (String × String)

/-- Python `operation_params.get(key, "")`. -/
def getParam (ps : OperationParams) (key : String) : String :=
  match ps.find? (fun kv => kv.1 == key) with
  | some kv => kv.2
  | none => ""

/-- `OperationType` enum from containment.py. -/
inductive OperationType
  | file_system
  | network
  | process
  | database
  | content_generation
  | api_call
  | skill_execution
deriving DecidableEq, Repr

/-- The `.value` of each `OperationType` member. -/
def OperationType.value : OperationType → String
  | .file_system => "file_system"
  | .network => "network"
  | .process => "process"
  | .database => "database"
  | .content_generation => "content_generation"
  | .api_call => "api_call"
  | .skill_execution => "skill_execution"

/-- `ResourceType` enum from containment.py. -/
inductive ResourceType
  | memory
  | cpu_time
  | api_requests
  | storage
  | database_connections
  | redis_connections
  | concurrent_tasks
deriving DecidableEq, Repr

/-- The `.value` of each `ResourceType` member. -/
def ResourceType.value : ResourceType → String
  | .memory => "memory"
  | .cpu_time => "cpu_time"
  | .api_requests => "api_requests"
  | .storage => "storage"
  | .database_connections => "database_connections"
  | .redis_connections => "redis_connections"
  | .concurrent_tasks => "concurrent_tasks"

/-- `EscalationSeverity` enum from containment.py. -/
inductive EscalationSeverity
  | warning
  | block
  | terminate
  | hitl_review
deriving DecidableEq, Repr

/-- The `.value` of each `EscalationSeverity` member. -/
def EscalationSeverity.value : EscalationSeverity → String
  | .warning => "warning"
  | .block => "block"
  | .terminate => "terminate"
  | .hitl_review => "hitl_review"

/-- Modelled from the spec: the three security exception kinds
(`SecurityViolationError`, `ResourceQuotaExceededError`,
`EscalationTriggeredError`).  containment.py imports them from
`chimera_factory.exceptions`, but `exceptions.py` in the repository does
not define them; spec §7 describes them as three distinct failure kinds
deriving from the common base `ChimeraError`. -/
inductive ChimeraError
  | securityViolation (message : String)
  | resourceQuotaExceeded (message : String)
  | escalationTriggered (message : String)
deriving DecidableEq, Repr

/-- `ResourceQuota` dataclass. -/
structure ResourceQuota where
  resource_type : ResourceType
  max_amount : ℚ
  warning_threshold : ℚ := 0.8
  critical_threshold : ℚ := 0.95
  window_seconds : Option ℕ := none
deriving DecidableEq, Repr

/-- The violation dict built in `check_operation_allowed`. -/
structure SecurityEvent where
  agent_id : String
  operation_type : String
  operation_params : List (String × String)
  timestamp : ℚ
  violation_type : String
deriving DecidableEq, Repr

/-- The violation dict built in `check_resource_quota`'s critical branch. -/
structure ResourceViolation where
  agent_id : String
  resource_type : String
  current_usage : ℚ
  requested_amount : ℚ
  quota_max : ℚ
  threshold : ℚ
  timestamp : ℚ
deriving DecidableEq, Repr

/-- An entry of `operation_history` (either kind of violation dict). -/
inductive HistoryEntry
  | security (e : SecurityEvent)
  | resource (v : ResourceViolation)
deriving DecidableEq, Repr

/-- The context dict passed to `_escalate` on the warning path. -/
structure WarningContext where
  agent_id : String
  resource_type : String
  usage_percent : ℚ
deriving DecidableEq, Repr

/-- The `context` field of an escalation record. -/
inductive EscalationContext
  | violation (v : ResourceViolation)
  | warningCtx (w : WarningContext)
deriving DecidableEq, Repr

/-- The escalation dict appended to `escalation_log` by `_escalate`. -/
structure EscalationRecord where
  agent_id : String
  trigger : String
  severity : String
  context : EscalationContext
  timestamp : ℚ
deriving DecidableEq, Repr

/-- Mutable state of a `ContainmentPolicy` instance. -/
structure ContainmentPolicy where
  agent_id : String
  resource_usage : ResourceType → Option ℚ
  operation_history : List HistoryEntry
  escalation_log : List EscalationRecord

/-- `ContainmentPolicy.__init__`. -/
def ContainmentPolicy.init (agent_id : String) : ContainmentPolicy :=
  { agent_id := agent_id
    resource_usage := fun _ => none
    operation_history := []
    escalation_log := [] }

/-- `FORBIDDEN_OPERATIONS` class constant (dict keyed by category). -/
def FORBIDDEN_OPERATIONS : List (String × List String) :=
  [("read_outside_sandbox", ["/etc", "/proc", "/sys", "/root"]),
   ("write_outside_sandbox", ["/etc", "/proc", "/sys", "/root"]),
   ("delete_system_files", ["/etc", "/proc", "/sys", "/root"]),
   ("private_ip_ranges", ["10.", "172.16.", "192.168."]),
   ("non_whitelisted_domains", []),
   ("shell_commands", ["subprocess", "os.system", "eval", "exec"]),
   ("package_installation", ["apt-get", "pip install", "npm install"]),
   ("dangerous_sql", ["DROP TABLE", "DROP DATABASE", "TRUNCATE", "ALTER TABLE"])]

/-- Lookup `FORBIDDEN_OPERATIONS[key]`. -/
def forbiddenList (key : String) : List String :=
  ((FORBIDDEN_OPERATIONS.find? (fun kv => kv.1 == key)).map Prod.snd).getD []

/-- `RESOURCE_QUOTAS` class constant: `RESOURCE_QUOTAS.get resource_type`. -/
def RESOURCE_QUOTAS : ResourceType → Option ResourceQuota
  | .memory => some
      { resource_type := .memory
        max_amount := 512 * 1024 * 1024
        warning_threshold := 0.8
        critical_threshold := 0.9375 }
  | .cpu_time => some
      { resource_type := .cpu_time
        max_amount := 60
        warning_threshold := 0.75
        critical_threshold := 0.916 }
  | .api_requests => some
      { resource_type := .api_requests
        max_amount := 500
        warning_threshold := 0.8
        critical_threshold := 0.8
        window_seconds := some 3600 }
  | .storage => some
      { resource_type := .storage
        max_amount := 1 * 1024 * 1024 * 1024
        warning_threshold := 0.8
        critical_threshold := 0.95 }
  | .database_connections => some
      { resource_type := .database_connections
        max_amount := 10
        warning_threshold := 0.8
        critical_threshold := 0.8 }
  | .redis_connections => some
      { resource_type := .redis_connections
        max_amount := 20
        warning_threshold := 0.8
        critical_threshold := 0.8 }
  | .concurrent_tasks => some
      { resource_type := .concurrent_tasks
        max_amount := 5
        warning_threshold := 0.8
        critical_threshold := 0.8 }

/-- Rendering of a rational for interpolation into messages (stands in
for Python float formatting; no claim depends on message contents). -/
def ratStr (q : ℚ) : String := toString q.num ++ "/" ++ toString q.den

/-- Python `f"{q:.1f}"`: one decimal digit (stands in for float
formatting; no claim depends on message contents). -/
def formatTenths (q : ℚ) : String :=
  let n : ℤ := round (q * 10)
  toString (n / 10) ++ "." ++ toString (n % 10)

/-- `_log_security_event`: append the event to `operation_history`
(the logger call has no observable effect on the state). -/
def ContainmentPolicy._log_security_event
    (p : ContainmentPolicy) (event : SecurityEvent) : ContainmentPolicy :=
  { p with operation_history := p.operation_history ++ [.security event] }

/-- `_log_resource_violation`: append the violation to `operation_history`. -/
def ContainmentPolicy._log_resource_violation
    (p : ContainmentPolicy) (violation : ResourceViolation) : ContainmentPolicy :=
  { p with operation_history := p.operation_history ++ [.resource violation] }

/-- `_escalate`: always append an escalation record to `escalation_log`;
raise `EscalationTriggeredError` for the fatal severities
(`terminate`/`block`), returned here as `some` error. -/
def ContainmentPolicy._escalate
    (p : ContainmentPolicy) (trigger : String) (severity : EscalationSeverity)
    (context : EscalationContext) (now : ℚ) :
    ContainmentPolicy × Option ChimeraError :=
  let escalation : EscalationRecord :=
    { agent_id := p.agent_id
      trigger := trigger
      severity := severity.value
      context := context
      timestamp := now }
  let p1 := { p with escalation_log := p.escalation_log ++ [escalation] }
  if severity = .terminate ∨ severity = .block then
    (p1, some (.escalationTriggered
      ("Escalation triggered: " ++ trigger ++ " (severity: " ++ severity.value ++
       "). Reference: specs/security_policy.md Section 3")))
  else
    (p1, none)

/-- `_is_forbidden_operation`: the category-specific static denylist
checks (file system by substring, network by leading match, process by
substring, database by substring of the uppercased query). -/
def ContainmentPolicy._is_forbidden_operation
    (operation_type : OperationType) (operation_params : OperationParams) : Bool :=
  (operation_type == .file_system &&
    (forbiddenList "read_outside_sandbox").any
      (fun forbidden => strContainsSub (getParam operation_params "path") forbidden))
  || (operation_type == .network &&
    (forbiddenList "private_ip_ranges").any
      (fun pre => strStartsWith (getParam operation_params "url") pre))
  || (operation_type == .process &&
    (forbiddenList "shell_commands").any
      (fun cmd => strContainsSub (getParam operation_params "command") cmd))
  || (operation_type == .database &&
    (forbiddenList "dangerous_sql").any
      (fun sql => strContainsSub (strUpper (getParam operation_params "query")) sql))

/-- `check_operation_allowed`: on a forbidden match, log the violation
dict to `operation_history` and raise `SecurityViolationError`;
otherwise return `True`. -/
def ContainmentPolicy.check_operation_allowed
    (p : ContainmentPolicy) (operation_type : OperationType)
    (operation_params : OperationParams) (now : ℚ) :
    ContainmentPolicy × Except ChimeraError Bool :=
  if ContainmentPolicy._is_forbidden_operation operation_type operation_params then
    let violation : SecurityEvent :=
      { agent_id := p.agent_id
        operation_type := operation_type.value
        operation_params := operation_params
        timestamp := now
        violation_type := "forbidden_operation" }
    let p1 := p._log_security_event violation
    (p1, .error (.securityViolation
      ("Forbidden operation detected: " ++ operation_type.value ++
       ". Reference: specs/security_policy.md Section 1")))
  else
    (p, .ok true)

/-- `check_resource_quota`: quota lookup, critical check (log violation,
escalate with `terminate` — whose raised error propagates — with the
`ResourceQuotaExceededError` raise after it), warning check (escalate
with `warning`, build warning string), then commit the usage update. -/
def ContainmentPolicy.check_resource_quota
    (p : ContainmentPolicy) (resource_type : ResourceType) (amount : ℚ) (now : ℚ) :
    ContainmentPolicy × Except ChimeraError (Bool × Option String) :=
  match RESOURCE_QUOTAS resource_type with
  | none => (p, .ok (true, none))
  | some quota =>
    let current_usage : ℚ := (p.resource_usage resource_type).getD 0
    let new_usage : ℚ := current_usage + amount
    if new_usage > quota.max_amount * quota.critical_threshold then
      let violation : ResourceViolation :=
        { agent_id := p.agent_id
          resource_type := resource_type.value
          current_usage := current_usage
          requested_amount := amount
          quota_max := quota.max_amount
          threshold := quota.critical_threshold
          timestamp := now }
      let p1 := p._log_resource_violation violation
      match p1._escalate "resource_quota_critical" .terminate (.violation violation) now with
      | (p2, some e) => (p2, .error e)
      | (p2, none) =>
        (p2, .error (.resourceQuotaExceeded
          ("Resource quota exceeded (critical): " ++ resource_type.value ++
           ". Usage: " ++ ratStr new_usage ++ "/" ++ ratStr quota.max_amount ++
           ". Reference: specs/security_policy.md Section 2")))
    else if new_usage > quota.max_amount * quota.warning_threshold then
      let warning : String :=
        "Resource quota warning: " ++ resource_type.value ++ " at " ++
        formatTenths (new_usage / quota.max_amount * 100) ++ "% of quota"
      match p._escalate "resource_quota_warning" .warning
          (.warningCtx
            { agent_id := p.agent_id
              resource_type := resource_type.value
              usage_percent := new_usage / quota.max_amount * 100 }) now with
      | (p1, some e) => (p1, .error e)
      | (p1, none) =>
        let p2 := { p1 with resource_usage :=
          fun rt => if rt = resource_type then some new_usage else p1.resource_usage rt }
        (p2, .ok (true, some warning))
    else
      let p2 := { p with resource_usage :=
        fun rt => if rt = resource_type then some new_usage else p.resource_usage rt }
      (p2, .ok (true, none))

/-- `should_escalate`: returns true for every defined severity. -/
def ContainmentPolicy.should_escalate
    (_p : ContainmentPolicy) (_trigger_type : String)
    (severity : EscalationSeverity) : Bool :=
  if severity = .terminate ∨ severity = .block then true
  else if severity = .warning then true
  else if severity = .hitl_review then true
  else false

/-- Classifier: is this outcome a raised `ResourceQuotaExceededError`? -/
def isQuotaExceededError : Except ChimeraError (Bool × Option String) → Bool
  | .error (.resourceQuotaExceeded _) => true
  | _ => false

/-- The quota invariant of spec §3: every resource with a defined quota
has recorded usage at most `max_amount * critical_threshold`. -/
def QuotaInv (p : ContainmentPolicy) : Prop :=
  ∀ rt quota, RESOURCE_QUOTAS rt = some quota →
    (p.resource_usage rt).getD 0 ≤ quota.max_amount * quota.critical_threshold

/-! ## Branch lemmas -/

/-- `_escalate` with severity `warning` appends the record and raises nothing. -/
theorem escalate_warning_eq (p : ContainmentPolicy) (t : String)
    (c : EscalationContext) (now : ℚ) :
    p._escalate t .warning c now =
      ({ p with escalation_log := p.escalation_log ++
          [{ agent_id := p.agent_id, trigger := t, severity := "warning",
             context := c, timestamp := now }] }, none) := rfl

/-- `_escalate` with severity `terminate` appends the record and raises
`EscalationTriggeredError`. -/
theorem escalate_terminate_eq (p : ContainmentPolicy) (t : String)
    (c : EscalationContext) (now : ℚ) :
    p._escalate t .terminate c now =
      ({ p with escalation_log := p.escalation_log ++
          [{ agent_id := p.agent_id, trigger := t, severity := "terminate",
             context := c, timestamp := now }] },
       some (.escalationTriggered
        ("Escalation triggered: " ++ t ++ " (severity: " ++ "terminate" ++
         "). Reference: specs/security_policy.md Section 3"))) := rfl

/-- With no quota defined the check allows unconditionally, unchanged state. -/
theorem check_quota_none_eq (p : ContainmentPolicy) (rt : ResourceType)
    (amount now : ℚ) (hq : RESOURCE_QUOTAS rt = none) :
    p.check_resource_quota rt amount now = (p, .ok (true, none)) := by
  unfold ContainmentPolicy.check_resource_quota
  rw [hq]

/-- Critical branch: violation logged, terminate escalation appended, and
the error surfaced is the one raised inside `_escalate`
(`EscalationTriggeredError`); usage is not updated. -/
theorem check_quota_critical_eq (p : ContainmentPolicy) (rt : ResourceType)
    (amount now : ℚ) (quota : ResourceQuota)
    (hq : RESOURCE_QUOTAS rt = some quota)
    (hc : (p.resource_usage rt).getD 0 + amount > quota.max_amount * quota.critical_threshold) :
    p.check_resource_quota rt amount now =
      ({ p with
          operation_history := p.operation_history ++
            [.resource
              { agent_id := p.agent_id, resource_type := rt.value,
                current_usage := (p.resource_usage rt).getD 0,
                requested_amount := amount, quota_max := quota.max_amount,
                threshold := quota.critical_threshold, timestamp := now }],
          escalation_log := p.escalation_log ++
            [{ agent_id := p.agent_id, trigger := "resource_quota_critical",
               severity := "terminate",
               context := .violation
                 { agent_id := p.agent_id, resource_type := rt.value,
                   current_usage := (p.resource_usage rt).getD 0,
                   requested_amount := amount, quota_max := quota.max_amount,
                   threshold := quota.critical_threshold, timestamp := now },
               timestamp := now }] },
       .error (.escalationTriggered
        "Escalation triggered: resource_quota_critical (severity: terminate). Reference: specs/security_policy.md Section 3")) := by
  unfold ContainmentPolicy.check_resource_quota
  rw [hq]
  simp only [ContainmentPolicy._log_resource_violation, escalate_terminate_eq, if_pos hc]
  rfl

/-- Warning branch: warning escalation appended (non-fatal), usage
committed, non-null warning string returned. -/
theorem check_quota_warning_eq (p : ContainmentPolicy) (rt : ResourceType)
    (amount now : ℚ) (quota : ResourceQuota)
    (hq : RESOURCE_QUOTAS rt = some quota)
    (hc : ¬ ((p.resource_usage rt).getD 0 + amount > quota.max_amount * quota.critical_threshold))
    (hw : (p.resource_usage rt).getD 0 + amount > quota.max_amount * quota.warning_threshold) :
    p.check_resource_quota rt amount now =
      ({ p with
          resource_usage := fun rt2 =>
            if rt2 = rt then some ((p.resource_usage rt).getD 0 + amount)
            else p.resource_usage rt2,
          escalation_log := p.escalation_log ++
            [{ agent_id := p.agent_id, trigger := "resource_quota_warning",
               severity := "warning",
               context := .warningCtx
                 { agent_id := p.agent_id, resource_type := rt.value,
                   usage_percent := ((p.resource_usage rt).getD 0 + amount) / quota.max_amount * 100 },
               timestamp := now }] },
       .ok (true, some
        ("Resource quota warning: " ++ rt.value ++ " at " ++
         formatTenths (((p.resource_usage rt).getD 0 + amount) / quota.max_amount * 100) ++
         "% of quota"))) := by
  unfold ContainmentPolicy.check_resource_quota
  rw [hq]
  simp only [escalate_warning_eq, if_neg hc, if_pos hw]

/-- Normal branch: usage committed, `(true, none)` returned. -/
theorem check_quota_ok_eq (p : ContainmentPolicy) (rt : ResourceType)
    (amount now : ℚ) (quota : ResourceQuota)
    (hq : RESOURCE_QUOTAS rt = some quota)
    (hc : ¬ ((p.resource_usage rt).getD 0 + amount > quota.max_amount * quota.critical_threshold))
    (hw : ¬ ((p.resource_usage rt).getD 0 + amount > quota.max_amount * quota.warning_threshold)) :
    p.check_resource_quota rt amount now =
      ({ p with
          resource_usage := fun rt2 =>
            if rt2 = rt then some ((p.resource_usage rt).getD 0 + amount)
            else p.resource_usage rt2 },
       .ok (true, none)) := by
  unfold ContainmentPolicy.check_resource_quota
  rw [hq]
  simp only [if_neg hc, if_neg hw]

/-- Forbidden branch of `check_operation_allowed`: violation appended to
`operation_history`, `SecurityViolationError` raised. -/
theorem check_op_forbidden_eq (p : ContainmentPolicy) (ot : OperationType)
    (params : OperationParams) (now : ℚ)
    (h : ContainmentPolicy._is_forbidden_operation ot params = true) :
    p.check_operation_allowed ot params now =
      ({ p with operation_history := p.operation_history ++
          [.security
            { agent_id := p.agent_id, operation_type := ot.value,
              operation_params := params, timestamp := now,
              violation_type := "forbidden_operation" }] },
       .error (.securityViolation
        ("Forbidden operation detected: " ++ ot.value ++
         ". Reference: specs/security_policy.md Section 1"))) := by
  unfold ContainmentPolicy.check_operation_allowed
  simp only [ContainmentPolicy._log_security_event, if_pos h]

/-- Allowed branch of `check_operation_allowed`: state unchanged, `True`. -/
theorem check_op_allowed_eq (p : ContainmentPolicy) (ot : OperationType)
    (params : OperationParams) (now : ℚ)
    (h : ContainmentPolicy._is_forbidden_operation ot params = false) :
    p.check_operation_allowed ot params now = (p, .ok true) := by
  unfold ContainmentPolicy.check_operation_allowed
  rw [h]
  rfl

/-! ## Characterizations of `_is_forbidden_operation` per operation type -/

/-- File-system gating is substring containment of the four patterns. -/
theorem isForbidden_file_system_eq (params : OperationParams) :
    ContainmentPolicy._is_forbidden_operation .file_system params =
      (["/etc", "/proc", "/sys", "/root"] : List String).any
        (fun f => strContainsSub (getParam params "path") f) := by
  simp only [ContainmentPolicy._is_forbidden_operation,
    show (OperationType.file_system == OperationType.file_system) = true from rfl,
    show (OperationType.file_system == OperationType.network) = false from rfl,
    show (OperationType.file_system == OperationType.process) = false from rfl,
    show (OperationType.file_system == OperationType.database) = false from rfl,
    Bool.true_and, Bool.false_and, Bool.or_false,
    show forbiddenList "read_outside_sandbox" = ["/etc", "/proc", "/sys", "/root"] from rfl]

/-- Network gating tests only whether the raw url literally begins with
one of the three private range markers. -/
theorem isForbidden_network_eq (params : OperationParams) :
    ContainmentPolicy._is_forbidden_operation .network params =
      (strStartsWith (getParam params "url") "10." ||
       strStartsWith (getParam params "url") "172.16." ||
       strStartsWith (getParam params "url") "192.168.") := by
  simp only [ContainmentPolicy._is_forbidden_operation,
    show (OperationType.network == OperationType.file_system) = false from rfl,
    show (OperationType.network == OperationType.network) = true from rfl,
    show (OperationType.network == OperationType.process) = false from rfl,
    show (OperationType.network == OperationType.database) = false from rfl,
    Bool.true_and, Bool.false_and, Bool.or_false, Bool.false_or,
    show forbiddenList "private_ip_ranges" = ["10.", "172.16.", "192.168."] from rfl,
    List.any_cons, List.any_nil, Bool.or_assoc]

/-- Process gating is substring containment of the four shell markers. -/
theorem isForbidden_process_eq (params : OperationParams) :
    ContainmentPolicy._is_forbidden_operation .process params =
      (["subprocess", "os.system", "eval", "exec"] : List String).any
        (fun cmd => strContainsSub (getParam params "command") cmd) := by
  simp only [ContainmentPolicy._is_forbidden_operation,
    show (OperationType.process == OperationType.file_system) = false from rfl,
    show (OperationType.process == OperationType.network) = false from rfl,
    show (OperationType.process == OperationType.process) = true from rfl,
    show (OperationType.process == OperationType.database) = false from rfl,
    Bool.true_and, Bool.false_and, Bool.or_false, Bool.false_or,
    show forbiddenList "shell_commands" = ["subprocess", "os.system", "eval", "exec"] from rfl]

/-- Database gating is substring containment over the uppercased query. -/
theorem isForbidden_database_eq (params : OperationParams) :
    ContainmentPolicy._is_forbidden_operation .database params =
      (["DROP TABLE", "DROP DATABASE", "TRUNCATE", "ALTER TABLE"] : List String).any
        (fun sql => strContainsSub (strUpper (getParam params "query")) sql) := by
  simp only [ContainmentPolicy._is_forbidden_operation,
    show (OperationType.database == OperationType.file_system) = false from rfl,
    show (OperationType.database == OperationType.network) = false from rfl,
    show (OperationType.database == OperationType.process) = false from rfl,
    show (OperationType.database == OperationType.database) = true from rfl,
    Bool.true_and, Bool.false_and, Bool.or_false, Bool.false_or,
    show forbiddenList "dangerous_sql" = ["DROP TABLE", "DROP DATABASE", "TRUNCATE", "ALTER TABLE"] from rfl]

/-! ## Facts about the static quota table -/

/-- In the static table the warning bound never exceeds the critical bound. -/
theorem quota_warn_le_crit (rt : ResourceType) (quota : ResourceQuota)
    (hq : RESOURCE_QUOTAS rt = some quota) :
    quota.max_amount * quota.warning_threshold ≤ quota.max_amount * quota.critical_threshold := by
  cases rt <;>
  · simp only [RESOURCE_QUOTAS, Option.some.injEq] at hq
    subst hq
    norm_num

/-- In the static table every critical bound is nonnegative. -/
theorem quota_crit_bound_nonneg (rt : ResourceType) (quota : ResourceQuota)
    (hq : RESOURCE_QUOTAS rt = some quota) :
    0 ≤ quota.max_amount * quota.critical_threshold := by
  cases rt <;>
  · simp only [RESOURCE_QUOTAS, Option.some.injEq] at hq
    subst hq
    norm_num

/-! ## String-matching helper lemmas -/

/-- A leading-segment check fails when the first characters differ. -/
theorem listLeads_head_false (a b : Char) (as bs : List Char)
    (h : (a == b) = false) : listLeads (a :: as) (b :: bs) = false := by
  simp [listLeads, h]

/-- If `u` starts with a pattern whose first character is `c`, then `u`
itself starts with `c`. -/
theorem strStartsWith_scheme_head (u : String) (pat : String) (c : Char)
    (hpat : pat.data = c :: (pat.data.tail))
    (h : strStartsWith u pat = true) :
    ∃ rest, u.data = c :: rest := by
  unfold strStartsWith at h
  rw [hpat] at h
  cases hd : u.data with
  | nil => rw [hd] at h; simp [listLeads] at h
  | cons b bs =>
    rw [hd] at h
    have hb : (c == b) = true := by
      by_contra hcb
      rw [listLeads, Bool.and_eq_true] at h
      exact hcb h.1
    exact ⟨bs, by rw [eq_of_beq hb]⟩

/-- A url starting with an `http://` or `https://` scheme cannot start
with any of the three private range markers (they begin with a digit). -/
theorem http_url_no_private_lead (u : String)
    (h : strStartsWith u "http://" = true ∨ strStartsWith u "https://" = true) :
    strStartsWith u "10." = false ∧ strStartsWith u "172.16." = false ∧
      strStartsWith u "192.168." = false := by
  have hh : ∃ rest, u.data = 'h' :: rest := by
    rcases h with h | h
    · exact strStartsWith_scheme_head u "http://" 'h' rfl h
    · exact strStartsWith_scheme_head u "https://" 'h' rfl h
  rcases hh with ⟨rest, hu⟩
  refine ⟨?_, ?_, ?_⟩
  · unfold strStartsWith
    rw [hu]
    exact listLeads_head_false '1' 'h' _ rest rfl
  · unfold strStartsWith
    rw [hu]
    exact listLeads_head_false '1' 'h' _ rest rfl
  · unfold strStartsWith
    rw [hu]
    exact listLeads_head_false '1' 'h' _ rest rfl

/-- When a quota's warning and critical thresholds coincide, the warning
branch is unreachable: the call yields `(true, none)` or an error. -/
theorem check_quota_no_warning_of_eq_thresholds (p : ContainmentPolicy)
    (rt : ResourceType) (amount now : ℚ) (quota : ResourceQuota)
    (hq : RESOURCE_QUOTAS rt = some quota)
    (heq : quota.warning_threshold = quota.critical_threshold) :
    (p.check_resource_quota rt amount now).2 = .ok (true, none) ∨
      ∃ e, (p.check_resource_quota rt amount now).2 = .error e := by
  by_cases hc : (p.resource_usage rt).getD 0 + amount > quota.max_amount * quota.critical_threshold
  · exact .inr ⟨_, by rw [check_quota_critical_eq p rt amount now quota hq hc]⟩
  · refine .inl ?_
    have hw : ¬ ((p.resource_usage rt).getD 0 + amount >
        quota.max_amount * quota.warning_threshold) := by
      rw [heq]; exact hc
    rw [check_quota_ok_eq p rt amount now quota hq hc hw]

/-! ## Claims -/

/-- C1: on the fatal quota path (fresh policy, MEMORY, 500 MB > the
480 MB critical bound) the code appends the resource violation to
`operation_history` and a `terminate` escalation to `escalation_log`,
but the exception surfaced to the caller is `EscalationTriggeredError`
raised inside `_escalate`; the `raise ResourceQuotaExceededError`
statement after the escalation call is unreachable, so the caller never
observes `ResourceQuotaExceededError`, contrary to the claim and to the
method's own docstring and test. -/
theorem C1_fatal_quota_surfaces_escalation_error :
    (((ContainmentPolicy.init "agent-1").check_resource_quota .memory (500 * 1024 * 1024) 0).2 =
      .error (.escalationTriggered
        "Escalation triggered: resource_quota_critical (severity: terminate). Reference: specs/security_policy.md Section 3")) ∧
    (isQuotaExceededError
      ((ContainmentPolicy.init "agent-1").check_resource_quota .memory (500 * 1024 * 1024) 0).2 = false) ∧
    (((ContainmentPolicy.init "agent-1").check_resource_quota .memory (500 * 1024 * 1024) 0).1.operation_history =
      [.resource
        { agent_id := "agent-1", resource_type := "memory", current_usage := 0,
          requested_amount := 500 * 1024 * 1024, quota_max := 512 * 1024 * 1024,
          threshold := 0.9375, timestamp := 0 }]) ∧
    (((ContainmentPolicy.init "agent-1").check_resource_quota .memory (500 * 1024 * 1024) 0).1.escalation_log.map
        (fun esc => (esc.trigger, esc.severity)) =
      [("resource_quota_critical", "terminate")]) := by
  have h := check_quota_critical_eq (ContainmentPolicy.init "agent-1") .memory
    (500 * 1024 * 1024) 0
    { resource_type := .memory, max_amount := 512 * 1024 * 1024,
      warning_threshold := 0.8, critical_threshold := 0.9375 }
    rfl (by norm_num [ContainmentPolicy.init])
  rw [h]
  exact ⟨rfl, rfl, rfl, rfl⟩

/-- C2: a `check_resource_quota` call whose prospective total exceeds the
critical bound leaves the entire `resource_usage` mapping exactly as it
was before the call: the rejected amount is never committed. -/
theorem C2_rejected_amount_never_committed (p : ContainmentPolicy)
    (rt : ResourceType) (amount now : ℚ) (quota : ResourceQuota)
    (hq : RESOURCE_QUOTAS rt = some quota)
    (hc : (p.resource_usage rt).getD 0 + amount > quota.max_amount * quota.critical_threshold) :
    (p.check_resource_quota rt amount now).1.resource_usage = p.resource_usage := by
  rw [check_quota_critical_eq p rt amount now quota hq hc]

/-- Witness for C2 at a concrete over-critical memory request. -/
theorem C2_rejected_amount_never_committed_witness :
    ((ContainmentPolicy.init "w2").check_resource_quota .memory (500 * 1024 * 1024) 0).1.resource_usage =
      (ContainmentPolicy.init "w2").resource_usage :=
  C2_rejected_amount_never_committed (ContainmentPolicy.init "w2") .memory
    (500 * 1024 * 1024) 0
    { resource_type := .memory, max_amount := 512 * 1024 * 1024,
      warning_threshold := 0.8, critical_threshold := 0.9375 }
    rfl (by norm_num [ContainmentPolicy.init])

/-- C3: the quota invariant `usage[r] ≤ max_amount[r] * critical_threshold[r]`
holds on a fresh policy and is preserved by every `check_resource_quota`
call that returns normally (calls that would break it raise before
updating usage). -/
theorem C3_usage_invariant_preserved :
    (∀ a, QuotaInv (ContainmentPolicy.init a)) ∧
    (∀ (p : ContainmentPolicy) (rt : ResourceType) (amount now : ℚ)
        (res : Bool × Option String),
      QuotaInv p →
      (p.check_resource_quota rt amount now).2 = .ok res →
      QuotaInv (p.check_resource_quota rt amount now).1) := by
  constructor
  · intro a rt quota hq
    simpa [ContainmentPolicy.init] using quota_crit_bound_nonneg rt quota hq
  · intro p rt amount now res hInv hok rt2 quota2 hq2
    cases hq : RESOURCE_QUOTAS rt with
    | none =>
      rw [check_quota_none_eq p rt amount now hq]
      exact hInv rt2 quota2 hq2
    | some quota =>
      by_cases hc : (p.resource_usage rt).getD 0 + amount >
          quota.max_amount * quota.critical_threshold
      · rw [check_quota_critical_eq p rt amount now quota hq hc] at hok
        simp at hok
      · by_cases hw : (p.resource_usage rt).getD 0 + amount >
            quota.max_amount * quota.warning_threshold
        · rw [check_quota_warning_eq p rt amount now quota hq hc hw]
          by_cases h2 : rt2 = rt
          · subst h2
            have hqq : quota = quota2 := Option.some.inj (hq.symm.trans hq2)
            subst hqq
            push_neg at hc
            simpa using hc
          · simpa [h2] using hInv rt2 quota2 hq2
        · rw [check_quota_ok_eq p rt amount now quota hq hc hw]
          by_cases h2 : rt2 = rt
          · subst h2
            have hqq : quota = quota2 := Option.some.inj (hq.symm.trans hq2)
            subst hqq
            push_neg at hc
            simpa using hc
          · simpa [h2] using hInv rt2 quota2 hq2

/-- Witness for C3: the invariant holds after a successful call on a
fresh policy. -/
theorem C3_usage_invariant_preserved_witness :
    QuotaInv ((ContainmentPolicy.init "w3").check_resource_quota .memory 1 0).1 :=
  C3_usage_invariant_preserved.2 (ContainmentPolicy.init "w3") .memory 1 0 (true, none)
    (C3_usage_invariant_preserved.1 "w3")
    (by rw [check_quota_ok_eq (ContainmentPolicy.init "w3") .memory 1 0
        { resource_type := .memory, max_amount := 512 * 1024 * 1024,
          warning_threshold := 0.8, critical_threshold := 0.9375 }
        rfl (by norm_num [ContainmentPolicy.init]) (by norm_num [ContainmentPolicy.init])])

/-- C4: the end-to-end memory scenario as the code actually behaves.
The first call with 400 MB returns `(true, none)` — NOT a warning,
because 400 MB = 419430400 bytes is below the warning bound
0.8 * 512 MB = 429496729.6 bytes — and commits usage 400 MB; the second
call with 100 MB (total 500 MB > 480 MB critical) fails with the
escalation error and leaves usage at 400 MB.  The claimed non-null
warning on the first call (also asserted by the code's own comment and
test) does not occur. -/
theorem C4_memory_scenario_first_call_warns_nothing :
    (((ContainmentPolicy.init "agent-1").check_resource_quota .memory (400 * 1024 * 1024) 0).2 =
      .ok (true, none)) ∧
    (((ContainmentPolicy.init "agent-1").check_resource_quota .memory (400 * 1024 * 1024) 0).1.resource_usage .memory =
      some (400 * 1024 * 1024)) ∧
    ((((ContainmentPolicy.init "agent-1").check_resource_quota .memory (400 * 1024 * 1024) 0).1.check_resource_quota
        .memory (100 * 1024 * 1024) 0).2 =
      .error (.escalationTriggered
        "Escalation triggered: resource_quota_critical (severity: terminate). Reference: specs/security_policy.md Section 3")) ∧
    ((((ContainmentPolicy.init "agent-1").check_resource_quota .memory (400 * 1024 * 1024) 0).1.check_resource_quota
        .memory (100 * 1024 * 1024) 0).1.resource_usage .memory =
      some (400 * 1024 * 1024)) := by
  have h1 := check_quota_ok_eq (ContainmentPolicy.init "agent-1") .memory
    (400 * 1024 * 1024) 0
    { resource_type := .memory, max_amount := 512 * 1024 * 1024,
      warning_threshold := 0.8, critical_threshold := 0.9375 }
    rfl (by norm_num [ContainmentPolicy.init]) (by norm_num [ContainmentPolicy.init])
  have h2 := check_quota_critical_eq
    ({ ContainmentPolicy.init "agent-1" with
        resource_usage := fun rt2 =>
          if rt2 = ResourceType.memory then
            some (((ContainmentPolicy.init "agent-1").resource_usage .memory).getD 0 +
              400 * 1024 * 1024)
          else (ContainmentPolicy.init "agent-1").resource_usage rt2 })
    .memory (100 * 1024 * 1024) 0
    { resource_type := .memory, max_amount := 512 * 1024 * 1024,
      warning_threshold := 0.8, critical_threshold := 0.9375 }
    rfl (by norm_num [ContainmentPolicy.init])
  refine ⟨by rw [h1], ?_, ?_, ?_⟩
  · rw [h1]
    norm_num [ContainmentPolicy.init]
  · rw [h1, h2]
  · rw [h1, h2]
    norm_num [ContainmentPolicy.init]

/-- C5: threshold boundaries for any resource with a defined quota: a
prospective total in `(M*warning, M*critical]` returns `(true, some w)`;
above `M*critical` the call raises; strictly below `M*warning` it
returns `(true, none)`. -/
theorem C5_threshold_boundaries (p : ContainmentPolicy) (rt : ResourceType)
    (amount now : ℚ) (quota : ResourceQuota)
    (hq : RESOURCE_QUOTAS rt = some quota) :
    (((p.resource_usage rt).getD 0 + amount > quota.max_amount * quota.warning_threshold ∧
      (p.resource_usage rt).getD 0 + amount ≤ quota.max_amount * quota.critical_threshold) →
      ∃ w, (p.check_resource_quota rt amount now).2 = .ok (true, some w)) ∧
    ((p.resource_usage rt).getD 0 + amount > quota.max_amount * quota.critical_threshold →
      ∃ e, (p.check_resource_quota rt amount now).2 = .error e) ∧
    ((p.resource_usage rt).getD 0 + amount < quota.max_amount * quota.warning_threshold →
      (p.check_resource_quota rt amount now).2 = .ok (true, none)) := by
  refine ⟨?_, ?_, ?_⟩
  · rintro ⟨hw, hc⟩
    exact ⟨_, by rw [check_quota_warning_eq p rt amount now quota hq (not_lt.mpr hc) hw]⟩
  · intro hc
    exact ⟨_, by rw [check_quota_critical_eq p rt amount now quota hq hc]⟩
  · intro hw
    rw [check_quota_ok_eq p rt amount now quota hq
      (not_lt.mpr (le_of_lt (lt_of_lt_of_le hw (quota_warn_le_crit rt quota hq))))
      (not_lt.mpr (le_of_lt hw))]

/-- Witness for C5: all three branches exercised on the memory quota
(450 MB in the warning interval, 500 MB above critical, 100 MB below
warning). -/
theorem C5_threshold_boundaries_witness :
    (∃ w, ((ContainmentPolicy.init "w5").check_resource_quota .memory (450 * 1024 * 1024) 0).2 =
      .ok (true, some w)) ∧
    (∃ e, ((ContainmentPolicy.init "w5").check_resource_quota .memory (500 * 1024 * 1024) 0).2 =
      .error e) ∧
    (((ContainmentPolicy.init "w5").check_resource_quota .memory (100 * 1024 * 1024) 0).2 =
      .ok (true, none)) := by
  refine ⟨(C5_threshold_boundaries (ContainmentPolicy.init "w5") .memory
      (450 * 1024 * 1024) 0 _ rfl).1 ⟨?_, ?_⟩,
    (C5_threshold_boundaries (ContainmentPolicy.init "w5") .memory
      (500 * 1024 * 1024) 0 _ rfl).2.1 ?_,
    (C5_threshold_boundaries (ContainmentPolicy.init "w5") .memory
      (100 * 1024 * 1024) 0 _ rfl).2.2 ?_⟩ <;>
  norm_num [ContainmentPolicy.init]

/-- C6: forbidden-pattern gating: `/etc/passwd` always raises
`SecurityViolationError` and `/app/data/f.txt` always passes; any process
command containing one of the four shell markers, and any database query
whose uppercased text contains one of the four DDL patterns, always
raises `SecurityViolationError`. -/
theorem C6_forbidden_pattern_gating (p : ContainmentPolicy) (now : ℚ) :
    (∃ m, (p.check_operation_allowed .file_system [("path", "/etc/passwd")] now).2 =
      .error (.securityViolation m)) ∧
    ((p.check_operation_allowed .file_system [("path", "/app/data/f.txt")] now).2 = .ok true) ∧
    (∀ command marker, marker ∈ (["subprocess", "os.system", "eval", "exec"] : List String) →
      strContainsSub command marker = true →
      ∃ m, (p.check_operation_allowed .process [("command", command)] now).2 =
        .error (.securityViolation m)) ∧
    (∀ query sql, sql ∈ (["DROP TABLE", "DROP DATABASE", "TRUNCATE", "ALTER TABLE"] : List String) →
      strContainsSub (strUpper query) sql = true →
      ∃ m, (p.check_operation_allowed .database [("query", query)] now).2 =
        .error (.securityViolation m)) := by
  refine ⟨⟨_, by rw [check_op_forbidden_eq p _ _ now (by decide)]⟩,
    by rw [check_op_allowed_eq p _ _ now (by decide)], ?_, ?_⟩
  · intro command marker hm hsub
    have hT : ContainmentPolicy._is_forbidden_operation .process [("command", command)] = true := by
      rw [isForbidden_process_eq]
      exact List.any_eq_true.mpr ⟨marker, hm, hsub⟩
    exact ⟨_, by rw [check_op_forbidden_eq p _ _ now hT]⟩
  · intro query sql hm hsub
    have hT : ContainmentPolicy._is_forbidden_operation .database [("query", query)] = true := by
      rw [isForbidden_database_eq]
      exact List.any_eq_true.mpr ⟨sql, hm, hsub⟩
    exact ⟨_, by rw [check_op_forbidden_eq p _ _ now hT]⟩

/-- Witness for C6: a concrete forbidden shell command and a concrete
lowercase destructive query both raise. -/
theorem C6_forbidden_pattern_gating_witness :
    (∃ m, ((ContainmentPolicy.init "w6").check_operation_allowed .process
      [("command", "subprocess.run(cmd)")] 0).2 = .error (.securityViolation m)) ∧
    (∃ m, ((ContainmentPolicy.init "w6").check_operation_allowed .database
      [("query", "drop table users")] 0).2 = .error (.securityViolation m)) :=
  ⟨(C6_forbidden_pattern_gating (ContainmentPolicy.init "w6") 0).2.2.1
      "subprocess.run(cmd)" "subprocess" (by decide) (by decide),
   (C6_forbidden_pattern_gating (ContainmentPolicy.init "w6") 0).2.2.2
      "drop table users" "DROP TABLE" (by decide) (by decide)⟩

/-- C7: audit completeness: whenever `check_operation_allowed` raises, a
security event was appended to `operation_history`; whenever
`check_resource_quota` raises, a resource violation was appended to
`operation_history` and an escalation record to `escalation_log`, all
before the exception propagates. -/
theorem C7_audit_written_before_raise (p : ContainmentPolicy) :
    (∀ ot params now e,
      (p.check_operation_allowed ot params now).2 = .error e →
      ∃ ev, (p.check_operation_allowed ot params now).1.operation_history =
        p.operation_history ++ [HistoryEntry.security ev]) ∧
    (∀ rt amount now e,
      (p.check_resource_quota rt amount now).2 = .error e →
      (∃ v, (p.check_resource_quota rt amount now).1.operation_history =
        p.operation_history ++ [HistoryEntry.resource v]) ∧
      (∃ esc, (p.check_resource_quota rt amount now).1.escalation_log =
        p.escalation_log ++ [esc])) := by
  constructor
  · intro ot params now e herr
    by_cases hf : ContainmentPolicy._is_forbidden_operation ot params = true
    · rw [check_op_forbidden_eq p ot params now hf]
      exact ⟨_, rfl⟩
    · rw [check_op_allowed_eq p ot params now (by simpa using hf)] at herr
      simp at herr
  · intro rt amount now e herr
    cases hq : RESOURCE_QUOTAS rt with
    | none =>
      rw [check_quota_none_eq p rt amount now hq] at herr
      simp at herr
    | some quota =>
      by_cases hc : (p.resource_usage rt).getD 0 + amount >
          quota.max_amount * quota.critical_threshold
      · rw [check_quota_critical_eq p rt amount now quota hq hc]
        exact ⟨⟨_, rfl⟩, ⟨_, rfl⟩⟩
      · by_cases hw : (p.resource_usage rt).getD 0 + amount >
            quota.max_amount * quota.warning_threshold
        · rw [check_quota_warning_eq p rt amount now quota hq hc hw] at herr
          simp at herr
        · rw [check_quota_ok_eq p rt amount now quota hq hc hw] at herr
          simp at herr

/-- Witness for C7: the audit entries exist after a concrete forbidden
operation and a concrete fatal quota violation. -/
theorem C7_audit_written_before_raise_witness :
    (∃ ev, ((ContainmentPolicy.init "w7").check_operation_allowed .file_system
      [("path", "/etc/passwd")] 0).1.operation_history =
      (ContainmentPolicy.init "w7").operation_history ++ [HistoryEntry.security ev]) ∧
    ((∃ v, ((ContainmentPolicy.init "w7").check_resource_quota .memory (500 * 1024 * 1024) 0).1.operation_history =
      (ContainmentPolicy.init "w7").operation_history ++ [HistoryEntry.resource v]) ∧
     (∃ esc, ((ContainmentPolicy.init "w7").check_resource_quota .memory (500 * 1024 * 1024) 0).1.escalation_log =
      (ContainmentPolicy.init "w7").escalation_log ++ [esc])) :=
  ⟨(C7_audit_written_before_raise (ContainmentPolicy.init "w7")).1 .file_system
      [("path", "/etc/passwd")] 0
      (.securityViolation ("Forbidden operation detected: " ++ OperationType.file_system.value ++
        ". Reference: specs/security_policy.md Section 1"))
      (by rw [check_op_forbidden_eq _ _ _ _ (by decide)]),
   (C7_audit_written_before_raise (ContainmentPolicy.init "w7")).2 .memory
      (500 * 1024 * 1024) 0
      (.escalationTriggered
        "Escalation triggered: resource_quota_critical (severity: terminate). Reference: specs/security_policy.md Section 3")
      (by rw [check_quota_critical_eq (ContainmentPolicy.init "w7") .memory
          (500 * 1024 * 1024) 0
          { resource_type := .memory, max_amount := 512 * 1024 * 1024,
            warning_threshold := 0.8, critical_threshold := 0.9375 }
          rfl (by norm_num [ContainmentPolicy.init])])⟩

/-- C8: the NETWORK check tests only whether the raw url string literally
begins with one of the three private range markers, so any url beginning
with an `http://` or `https://` scheme passes — including urls whose
host is a private IP, such as `http://192.168.1.1/api`. -/
theorem C8_network_check_is_literal_leading_match (p : ContainmentPolicy) (now : ℚ) :
    (∀ params, ContainmentPolicy._is_forbidden_operation .network params =
      (strStartsWith (getParam params "url") "10." ||
       strStartsWith (getParam params "url") "172.16." ||
       strStartsWith (getParam params "url") "192.168.")) ∧
    (∀ params, (strStartsWith (getParam params "url") "http://" = true ∨
        strStartsWith (getParam params "url") "https://" = true) →
      p.check_operation_allowed .network params now = (p, .ok true)) ∧
    ((p.check_operation_allowed .network [("url", "http://192.168.1.1/api")] now).2 = .ok true) := by
  refine ⟨isForbidden_network_eq, ?_, ?_⟩
  · intro params hscheme
    obtain ⟨h1, h2, h3⟩ := http_url_no_private_lead _ hscheme
    exact check_op_allowed_eq p _ params now
      (by rw [isForbidden_network_eq]; simp [h1, h2, h3])
  · rw [check_op_allowed_eq p _ _ now (by decide)]

/-- Witness for C8: a private-IP url behind a scheme passes the check. -/
theorem C8_network_check_is_literal_leading_match_witness :
    (ContainmentPolicy.init "w8").check_operation_allowed .network
      [("url", "http://192.168.1.1/api")] 0 = (ContainmentPolicy.init "w8", .ok true) :=
  (C8_network_check_is_literal_leading_match (ContainmentPolicy.init "w8") 0).2.1
    [("url", "http://192.168.1.1/api")] (.inl (by decide))

/-- C9: for the four resources whose warning and critical thresholds are
both 0.8 the warning interval is empty: every call either returns
`(true, none)` or raises. -/
theorem C9_equal_thresholds_never_warn (p : ContainmentPolicy) (amount now : ℚ) :
    ∀ rt, rt ∈ ([.api_requests, .database_connections, .redis_connections,
        .concurrent_tasks] : List ResourceType) →
      (p.check_resource_quota rt amount now).2 = .ok (true, none) ∨
      ∃ e, (p.check_resource_quota rt amount now).2 = .error e := by
  intro rt hm
  fin_cases hm <;>
    exact check_quota_no_warning_of_eq_thresholds p _ amount now _ rfl rfl

/-- Witness for C9 on the API_REQUESTS quota. -/
theorem C9_equal_thresholds_never_warn_witness :
    ((ContainmentPolicy.init "w9").check_resource_quota .api_requests 1 0).2 = .ok (true, none) ∨
    ∃ e, ((ContainmentPolicy.init "w9").check_resource_quota .api_requests 1 0).2 = .error e :=
  C9_equal_thresholds_never_warn (ContainmentPolicy.init "w9") 1 0 .api_requests (by decide)

/-- C10: the FILE_SYSTEM check is substring containment, not path-anchored
matching: any path containing one of the four patterns anywhere raises
(including `/app/etc/config` and `/data/rootfs`), and any path containing
none of them passes. -/
theorem C10_file_system_check_is_substring_containment (p : ContainmentPolicy) (now : ℚ) :
    (∀ params, ContainmentPolicy._is_forbidden_operation .file_system params =
      (["/etc", "/proc", "/sys", "/root"] : List String).any
        (fun f => strContainsSub (getParam params "path") f)) ∧
    (∀ params f, f ∈ (["/etc", "/proc", "/sys", "/root"] : List String) →
      strContainsSub (getParam params "path") f = true →
      ∃ m, (p.check_operation_allowed .file_system params now).2 =
        .error (.securityViolation m)) ∧
    (∀ params, (∀ f ∈ (["/etc", "/proc", "/sys", "/root"] : List String),
        strContainsSub (getParam params "path") f = false) →
      (p.check_operation_allowed .file_system params now).2 = .ok true) ∧
    (∃ m, (p.check_operation_allowed .file_system [("path", "/app/etc/config")] now).2 =
      .error (.securityViolation m)) ∧
    (∃ m, (p.check_operation_allowed .file_system [("path", "/data/rootfs")] now).2 =
      .error (.securityViolation m)) := by
  refine ⟨isForbidden_file_system_eq, ?_, ?_,
    ⟨_, by rw [check_op_forbidden_eq p _ _ now (by decide)]⟩,
    ⟨_, by rw [check_op_forbidden_eq p _ _ now (by decide)]⟩⟩
  · intro params f hf hsub
    have hT : ContainmentPolicy._is_forbidden_operation .file_system params = true := by
      rw [isForbidden_file_system_eq]
      exact List.any_eq_true.mpr ⟨f, hf, hsub⟩
    exact ⟨_, by rw [check_op_forbidden_eq p _ _ now hT]⟩
  · intro params hall
    have hF : ContainmentPolicy._is_forbidden_operation .file_system params = false := by
      rw [isForbidden_file_system_eq]
      exact List.any_eq_false.mpr (fun f hf => by simp [hall f hf])
    rw [check_op_allowed_eq p _ _ now hF]

/-- Witness for C10: a sandbox-internal path containing `/etc` raises;
a clean path passes. -/
theorem C10_file_system_check_is_substring_containment_witness :
    (∃ m, ((ContainmentPolicy.init "w10").check_operation_allowed .file_system
      [("path", "/app/etc/config")] 0).2 = .error (.securityViolation m)) ∧
    (((ContainmentPolicy.init "w10").check_operation_allowed .file_system
      [("path", "/app/data/notes.txt")] 0).2 = .ok true) :=
  ⟨(C10_file_system_check_is_substring_containment (ContainmentPolicy.init "w10") 0).2.1
      [("path", "/app/etc/config")] "/etc" (by decide) (by decide),
   (C10_file_system_check_is_substring_containment (ContainmentPolicy.init "w10") 0).2.2.1
      [("path", "/app/data/notes.txt")] (by decide)⟩
